import Mathlib

/-!
Verification development for the browser-side job-status scripts of the
PDF extractor web application. The JavaScript sources are embedded
shallowly: each class becomes a state structure with a step function over
explicit events, each pure rendering helper becomes a Lean function, and
JavaScript truthiness on optional fields is made explicit. Definitions
whose doc comment says so are modelled from the specification text rather
than from a source file; they exist only to compare the specified
behaviour with the embedded source behaviour.
-/

namespace PdfExtract

/-- Truthiness of an optional JS string: null, undefined and the empty
string are falsy. -/
def jsStrTruthy : Option String → Bool
  | none => false
  | some s => !(s = "")

/-- JS idiom `x || dflt` on an optional string. -/
def jsOrStr (x : Option String) (dflt : String) : String :=
  match x with
  | none => dflt
  | some s => if s = "" then dflt else s

/-- JS idiom `x || 0` on an optional integer field (absent, null and 0
all give 0; any other number passes through). -/
def jsOrZeroInt : Option Int → Int
  | none => 0
  | some p => if p = 0 then 0 else p

/-- Rendering of a possibly absent numeric field through a JS template
string: undefined prints as the text undefined. -/
def jsNumText : Option Int → String
  | none => "undefined"
  | some n => toString n

/-- JS expression `s.charAt(0).toUpperCase() + s.slice(1)`. -/
def jsCapitalize (s : String) : String :=
  match s.data with
  | [] => ""
  | c :: cs => String.mk (c.toUpper :: cs)

/-- JS lowercasing of a string, over the character list. -/
def jsToLower (s : String) : String := String.mk (s.data.map Char.toLower)

/-- Check that the first list is a prefix of the second. -/
def charsPre : List Char → List Char → Bool
  | [], _ => true
  | _ :: _, [] => false
  | a :: as, b :: bs => a == b && charsPre as bs

/-- Check that the first list occurs as a contiguous sublist of the
second. -/
def charsSub (needle : List Char) (hay : List Char) : Bool :=
  match hay with
  | [] => charsPre needle []
  | _ :: rest => charsPre needle hay || charsSub needle rest

/-- JS `haystack.includes(needle)` test for a non-empty needle. -/
def jsIncludes (haystack needle : String) : Bool :=
  charsSub needle.data haystack.data

/-- Job-status payload as consumed by the polling scripts. Optional fields
model keys that may be absent from the JSON. -/
structure Payload where
  status : String
  progress_percent : Option Int := none
  processed_count : Option Int := none
  total_count : Option Int := none
  total_case_count : Option Int := none
  current_phase : Option String := none
  processing_details : Option String := none
  error : Option String := none
  deriving Repr, DecidableEq

/-- Marking given to one phase indicator element. -/
inductive PhaseMark where
  | active
  | complete
  | pending
  deriving Repr, DecidableEq

namespace JobProgress

/-- Terminal statuses tested by JobProgress.pollStatus
(src/core/static/js/job-progress.js line 262). -/
def terminalStatuses : List String := ["completed", "error", "failed", "cancelled"]

/-- Mutable state of a JobProgress instance, plus instrumentation of the
externally visible effects: fetchCount counts fetch calls issued, inflight
counts issued fetches whose promise has not settled, completeCalls records
the payloads passed to the onComplete callback. -/
structure State where
  isActive : Bool
  timerOn : Bool
  pollCount : Nat
  lastStatus : Option String
  fetchCount : Nat
  inflight : Nat
  completeCalls : List Payload
  deriving Repr, DecidableEq

/-- State directly after the constructor ran. -/
def init : State :=
  { isActive := false, timerOn := false, pollCount := 0, lastStatus := none
  , fetchCount := 0, inflight := 0, completeCalls := [] }

/-- Synchronous part of pollStatus: bump the poll counter and issue the
fetch (job-progress.js lines 201-213). -/
def pollStart (s : State) : State :=
  { s with pollCount := s.pollCount + 1
         , fetchCount := s.fetchCount + 1
         , inflight := s.inflight + 1 }

/-- startTracking (job-progress.js lines 161-177): a no-op while already
active, otherwise an immediate poll plus a repeating interval timer. -/
def startTracking (s : State) : State :=
  if s.isActive then s
  else
    let s1 := pollStart { s with isActive := true }
    { s1 with timerOn := true }

/-- stopTracking (job-progress.js lines 182-196): a no-op while not
active, otherwise clears the interval timer and deactivates. -/
def stopTracking (s : State) : State :=
  if s.isActive then { s with timerOn := false, isActive := false }
  else s

/-- Rejection handler of the pollStatus fetch chain (job-progress.js lines
276-299): the settled promise leaves flight, and tracking stops only when
the total poll count exceeds 10. -/
def settleFailure (s : State) : State :=
  if s.pollCount > 10 then stopTracking { s with inflight := s.inflight - 1 }
  else { s with inflight := s.inflight - 1 }

/-- Fulfilled handler of the pollStatus fetch chain (job-progress.js lines
223-275). A payload whose error field is truthy is thrown to the catch
handler; otherwise the display is updated, lastStatus recorded, and a
terminal status stops tracking and fires onComplete. -/
def settleSuccess (s : State) (d : Payload) : State :=
  if jsStrTruthy d.error then settleFailure s
  else if d.status ∈ terminalStatuses then
    let s2 := stopTracking { s with inflight := s.inflight - 1, lastStatus := some d.status }
    { s2 with completeCalls := s2.completeCalls ++ [d] }
  else { s with inflight := s.inflight - 1, lastStatus := some d.status }

/-- Events a JobProgress instance reacts to: the public start and stop
calls, a firing of the repeating interval timer, and the settling of an
outstanding fetch with a parsed payload or with a network or HTTP error. -/
inductive Event where
  | start
  | stop
  | tick
  | settleOk (d : Payload)
  | settleErr
  deriving Repr, DecidableEq

/-- Single step of the JobProgress event loop. A tick only fires while the
interval timer exists; a settle event only applies while a fetch is
outstanding. -/
def step (s : State) : Event → State
  | .start => startTracking s
  | .stop => stopTracking s
  | .tick => if s.timerOn then pollStart s else s
  | .settleOk d => if s.inflight = 0 then s else settleSuccess s d
  | .settleErr => if s.inflight = 0 then s else settleFailure s

/-- Run a sequence of events. -/
def run (s : State) (evs : List Event) : State := evs.foldl step s

/-- Basic well-formedness of a JobProgress state: the repeating timer only
exists while tracking is active. -/
def Wf (s : State) : Prop := s.isActive = false → s.timerOn = false

instance (s : State) : Decidable (Wf s) := by unfold Wf; infer_instance

/-- Phase order table of updatePhaseDisplay (job-progress.js lines
391-398), with the `|| 0` fallback of line 400 and 410. -/
def phaseOrder : String → Nat
  | "initializing" => 0
  | "preparing" => 1
  | "extracting" => 2
  | "processing" => 3
  | "sending" => 4
  | "completed" => 5
  | _ => 0

/-- Names of the phase elements iterated by updatePhaseDisplay, in the
order findElements stores them (job-progress.js lines 141-148). -/
def phaseNames : List String :=
  ["initializing", "preparing", "extracting", "processing", "sending", "completed"]

/-- Marking assigned by updatePhaseDisplay (job-progress.js lines 403-420)
to the element of phaseName when the current phase is phase. -/
def phaseMark (phase phaseName : String) : PhaseMark :=
  if phaseName = phase then .active
  else if phaseOrder phaseName < phaseOrder phase then .complete
  else .pending

/-- Dispatch in updateDisplay (job-progress.js lines 372-375): the phase
display is touched only when the payload carries a truthy current_phase;
otherwise it is left exactly as it was. -/
def phaseDispatch (d : Payload) : Option String :=
  match d.current_phase with
  | none => none
  | some p => if p = "" then none else some p

/-- Progress bar styling chosen in updateDisplay (job-progress.js lines
316-325). -/
def barCssFor (st : String) : Option String :=
  if st = "completed" then some "bg-success"
  else if st = "error" ∨ st = "failed" then some "bg-danger"
  else if st = "cancelled" then some "bg-warning"
  else none

/-- Status line built in updateDisplay (job-progress.js lines 330-348). -/
def statusTextFor (d : Payload) : String :=
  if d.status = "in_progress" ∨ d.status = "processing" then
    "Processing (" ++ jsNumText d.processed_count ++ " of " ++
      jsNumText d.total_count ++ " documents)"
  else if d.status = "completed" then
    "Completed (" ++ jsNumText d.total_count ++ " documents, " ++
      jsNumText d.total_case_count ++ " cases)"
  else if d.status = "error" ∨ d.status = "failed" then
    "Failed: " ++ jsOrStr d.error "Unknown error"
  else if d.status = "cancelled" then "Cancelled"
  else jsCapitalize d.status

/-- DOM outcome of one updateDisplay call. -/
structure Display where
  progressWidth : Int
  ariaValuenow : Int
  barCss : Option String
  statusText : String
  phase : Option String
  deriving Repr, DecidableEq

/-- updateDisplay (job-progress.js lines 306-380) as a pure function of
the payload. -/
def updateDisplay (d : Payload) : Display :=
  { progressWidth := jsOrZeroInt d.progress_percent
  , ariaValuenow := jsOrZeroInt d.progress_percent
  , barCss := barCssFor d.status
  , statusText := statusTextFor d
  , phase := phaseDispatch d }

end JobProgress

namespace StatusUpdater

/-- Constructor options with their defaults (tests/column_definition.test.js
lines 237-241 of the embedded status-updater source). -/
structure Options where
  pollInterval : Nat
  maxRetries : Nat
  deriving Repr, DecidableEq

/-- Default options: pollInterval 2000, maxRetries 5. -/
def defaults : Options := { pollInterval := 2000, maxRetries := 5 }

/-- Mutable state of a StatusUpdater instance. The pollTimer holds the
delay of the pending one-shot timeout, when one is scheduled. -/
structure State where
  pollTimer : Option Nat
  currentJobId : Option String
  retryCount : Nat
  fetchCount : Nat
  inflight : Nat
  errorDisplay : Option String
  deriving Repr, DecidableEq

/-- State directly after the constructor ran. -/
def init : State :=
  { pollTimer := none, currentJobId := none, retryCount := 0
  , fetchCount := 0, inflight := 0, errorDisplay := none }

/-- Message passed to displayError when the retry limit is hit. -/
def fatalMessage : String :=
  "Failed to connect to server. Please refresh the page to try again."

/-- Backoff expression of the catch handler:
Math.min(30000, pollInterval * Math.pow(2, retryCount)). -/
def backoffDelay (base k : Nat) : Nat := min 30000 (base * 2 ^ k)

/-- pollStatus start: issue a fetch unless no job id is bound. -/
def pollStatus (s : State) : State :=
  match s.currentJobId with
  | none => s
  | some _ => { s with fetchCount := s.fetchCount + 1, inflight := s.inflight + 1 }

/-- stopPolling: clear the pending timeout. -/
def stopPolling (s : State) : State := { s with pollTimer := none }

/-- startPolling: refuse an empty job id, otherwise clear any timer, bind
the id, reset the retry counter and poll at once. -/
def startPolling (s : State) (jobId : String) : State :=
  if jobId = "" then s
  else pollStatus { stopPolling s with currentJobId := some jobId, retryCount := 0 }

/-- Lowercased status comparison used by shouldContinuePolling. -/
def continuesOn (st : String) : Bool :=
  !(jsToLower st = "completed" || jsToLower st = "failed" || jsToLower st = "error")

/-- shouldContinuePolling: flat status first, then a nested job status,
defaulting to true. -/
def shouldContinuePolling (status jobStatus : Option String) : Bool :=
  match status with
  | some st => continuesOn st
  | none =>
    match jobStatus with
    | some st => continuesOn st
    | none => true

/-- Fulfilled handler of the pollStatus fetch chain: reset the retry
counter, and schedule the next poll at the plain interval only while the
job should continue. -/
def settleSuccess (opts : Options) (s : State) (status jobStatus : Option String) : State :=
  if shouldContinuePolling status jobStatus then
    { s with inflight := s.inflight - 1, retryCount := 0
           , pollTimer := some opts.pollInterval }
  else { s with inflight := s.inflight - 1, retryCount := 0 }

/-- Rejection handler of the pollStatus fetch chain: increment the retry
counter; at the limit show the fatal message and schedule nothing,
otherwise schedule a one-shot retry after the backoff delay. -/
def settleFailure (opts : Options) (s : State) : State :=
  if opts.maxRetries ≤ s.retryCount + 1 then
    { s with inflight := s.inflight - 1, retryCount := s.retryCount + 1
           , errorDisplay := some fatalMessage }
  else
    { s with inflight := s.inflight - 1, retryCount := s.retryCount + 1
           , pollTimer := some (backoffDelay opts.pollInterval (s.retryCount + 1)) }

/-- Events a StatusUpdater instance reacts to. -/
inductive Event where
  | startPoll (jobId : String)
  | stopPoll
  | timerFire
  | settleOk (status jobStatus : Option String)
  | settleErr
  deriving Repr, DecidableEq

/-- Single step of the StatusUpdater event loop. The one-shot timeout
fires at most once; a settle event only applies while a fetch is
outstanding. -/
def step (opts : Options) (s : State) : Event → State
  | .startPoll j => startPolling s j
  | .stopPoll => stopPolling s
  | .timerFire =>
    match s.pollTimer with
    | some _ => pollStatus { s with pollTimer := none }
    | none => s
  | .settleOk st jst => if s.inflight = 0 then s else settleSuccess opts s st jst
  | .settleErr => if s.inflight = 0 then s else settleFailure opts s

/-- Run a sequence of events. -/
def run (opts : Options) (s : State) (evs : List Event) : State :=
  evs.foldl (step opts) s

/-- Boolean marker of events other than a startPolling call. -/
def isNotStart : Event → Bool
  | .startPoll _ => false
  | _ => true

/-- Boolean check that an event list never calls startPolling. -/
def noStart (evs : List Event) : Bool := evs.all isNotStart

/-- Badge text and style of updateStatusBadge in the embedded
status-updater source (switch on data.status, default Unknown). -/
def badge (status : String) : String × String :=
  if status = "pending" then ("Pending", "bg-warning")
  else if status = "in_progress" ∨ status = "processing" then ("Processing", "bg-primary")
  else if status = "waiting" then ("Waiting", "bg-info")
  else if status = "extracting" then ("Extracting", "bg-info")
  else if status = "completed" then ("Completed", "bg-success")
  else if status = "error" ∨ status = "failed" then ("Error", "bg-danger")
  else ("Unknown", "bg-secondary")

/-- Phase inference of updateProcessingPhase from the status and the
processing_details text, in source check order. -/
def inferPhase (status : String) (details : Option String) : String :=
  if status = "completed" then "completed"
  else if jsIncludes (jsOrStr details "") "extracting" ||
          jsIncludes (jsOrStr details "") "extraction" then "extracting"
  else if jsIncludes (jsOrStr details "") "processing" then "processing"
  else if jsIncludes (jsOrStr details "") "sending" then "sending"
  else if jsIncludes (jsOrStr details "") "preparing" then "preparing"
  else "initializing"

end StatusUpdater

namespace Banner

/-- Tracked-job record of the banner (a subset of the job payload keyed
by id; id 0 models a falsy id). -/
structure Job where
  id : Nat
  status : Option String := none
  progress_percent : Option Int := none
  completed_at : Option Int := none
  deriving Repr, DecidableEq

/-- Object-spread merge in trackJob: fields of the update override the
tracked entry when present. -/
def mergeJob (old upd : Job) : Job :=
  { id := upd.id
  , status := (upd.status).orElse fun _ => old.status
  , progress_percent := (upd.progress_percent).orElse fun _ => old.progress_percent
  , completed_at := (upd.completed_at).orElse fun _ => old.completed_at }

/-- trackJob (part_002 lines 391-414): update in place when the id is
already tracked, otherwise prepend and truncate to maxTracked entries. -/
def trackJob (maxTracked : Nat) (jobs : List Job) (j : Job) : List Job :=
  match jobs.findIdx? (fun job => job.id == j.id) with
  | some i => jobs.set i (mergeJob (jobs.getD i j) j)
  | none =>
    if jobs.length + 1 > maxTracked then (j :: jobs).take maxTracked
    else j :: jobs

/-- Filter predicate of loadFromStorage (part_002 lines 481-488): drop
only completed jobs whose completion timestamp is over an hour old. -/
def keepStoredJob (now : Int) (j : Job) : Bool :=
  if j.status = some "completed" then
    match j.completed_at with
    | none => true
    | some t => decide (now - 3600000 < t)
  else true

/-- Outcome of loadFromStorage (part_002 lines 470-496): nothing stored or
an unparsable record leaves the list empty; a stored list is filtered but
never truncated. -/
def loadFromStorage (now : Int) (stored : Option (List Job)) : List Job :=
  match stored with
  | none => []
  | some js => js.filter (keepStoredJob now)

/-- Mutable state of the banner, with the same effect instrumentation as
the other pollers, plus the list of user-surfaced error messages, which no
banner code path ever appends to. -/
structure BState where
  trackedJobs : List Job
  bannerVisible : Bool
  activeBanner : Option Nat
  pollTimerOn : Bool
  fetchCount : Nat
  inflight : Nat
  surfacedErrors : List String
  deriving Repr, DecidableEq

/-- hideBanner (part_002 lines 372-375). -/
def hideBanner (s : BState) : BState :=
  { s with bannerVisible := false, activeBanner := none }

/-- Effect of issuing one fetch. -/
def issueFetch (s : BState) : BState :=
  { s with fetchCount := s.fetchCount + 1, inflight := s.inflight + 1 }

/-- Firing of the repeating interval timer installed by startPolling
(part_002 lines 160-172): checkActiveJobs always issues exactly one fetch,
either the tracked-job status fetch or the active-jobs listing. -/
def tick (s : BState) : BState :=
  if s.pollTimerOn then issueFetch s else s

/-- Second then-handler of fetchActiveJobs (part_002 lines 214-236): a
non-empty listing is folded into the tracked list and the most recent job
is fetched; an empty listing hides the banner when one is showing. -/
def processActiveJobs (maxTracked : Nat) (s : BState) (jobs : List Job) : BState :=
  if jobs.length > 0 then
    let tj := jobs.foldl
      (fun acc j => if j.id ≠ 0 then trackJob maxTracked acc j else acc) s.trackedJobs
    let s1 := { s with trackedJobs := tj }
    match jobs.head? with
    | some j => if j.id ≠ 0 then issueFetch s1 else s1
    | none => s1
  else if s.activeBanner.isSome then hideBanner s else s

/-- Response handling of fetchActiveJobs (part_002 lines 200-244): HTTP
302 and 401 are mapped to an empty active-jobs list before the JSON is
read; any other non-2xx status and any JSON parse failure fall to the
catch handler, which only logs to the console. -/
def handleActiveJobsResponse (maxTracked : Nat) (s : BState) (respStatus : Nat)
    (body : Option (List Job)) : BState :=
  if respStatus = 302 ∨ respStatus = 401 then processActiveJobs maxTracked s []
  else if 200 ≤ respStatus ∧ respStatus ≤ 299 then
    match body with
    | some jobs => processActiveJobs maxTracked s jobs
    | none => s
  else s

/-- Progress number shown by updateBanner (part_002 line 286:
jobData.progress_percent || 0), written into the bar width and the
progress text. -/
def progressOf (j : Job) : Int := jsOrZeroInt j.progress_percent

/-- formatStatus (part_002 lines 498-519). -/
def formatStatus (status : Option String) : String :=
  match status with
  | none => "Unknown"
  | some s =>
    if s = "" then "Unknown"
    else if jsToLower s = "running" then "Running"
    else if jsToLower s = "waiting" then "Waiting"
    else if jsToLower s = "processing" then "Processing"
    else if jsToLower s = "completed" then "Completed"
    else if jsToLower s = "error" ∨ jsToLower s = "failed" then "Error"
    else if jsToLower s = "cancelled" then "Cancelled"
    else jsCapitalize s

/-- getStatusClass (part_002 lines 521-543). -/
def getStatusClass (status : Option String) : String :=
  match status with
  | none => "bg-secondary"
  | some s =>
    if s = "" then "bg-secondary"
    else if jsToLower s = "running" ∨ jsToLower s = "processing" then "bg-primary"
    else if jsToLower s = "waiting" then "bg-info"
    else if jsToLower s = "completed" then "bg-success"
    else if jsToLower s = "error" ∨ jsToLower s = "failed" then "bg-danger"
    else if jsToLower s = "cancelled" then "bg-secondary"
    else if jsToLower s = "warning" then "bg-warning"
    else "bg-secondary"

end Banner

namespace Csrf

/-- Token sources available to the page: the csrftoken cookie, the
csrf-token meta tag, and the hidden csrfmiddlewaretoken form input. -/
structure Env where
  cookieCsrftoken : Option String
  metaCsrfToken : Option String
  formCsrfmiddlewaretoken : Option String
  deriving Repr, DecidableEq

/-- getCsrfToken shared by the banner cancel handler and the status
updater continue handler: cookie value first, meta tag content as
fallback, empty string when both miss. -/
def getCsrfToken (env : Env) : String :=
  match env.cookieCsrftoken with
  | some v => if v = "" then (env.metaCsrfToken).getD "" else v
  | none => (env.metaCsrfToken).getD ""

/-- Shape of one mutating request as issued by the client. -/
structure MutRequest where
  method : String
  csrfHeader : Option String
  jsonContentType : Bool
  deriving Repr, DecidableEq

/-- saveColumn (column-definition.js lines 277-307): the token is read
from the hidden form input named csrfmiddlewaretoken; a missing input
crashes the handler before any request is sent, modelled as none. -/
def saveColumnRequest (env : Env) : Option MutRequest :=
  (env.formCsrfmiddlewaretoken).map fun t =>
    { method := "POST", csrfHeader := some t, jsonContentType := true }

/-- deleteColumn (column-definition.js lines 335-370), same token source. -/
def deleteColumnRequest (env : Env) : Option MutRequest :=
  (env.formCsrfmiddlewaretoken).map fun t =>
    { method := "POST", csrfHeader := some t, jsonContentType := false }

/-- applyDefaults (column-definition.js lines 428-462), same token source. -/
def applyDefaultsRequest (env : Env) : Option MutRequest :=
  (env.formCsrfmiddlewaretoken).map fun t =>
    { method := "POST", csrfHeader := some t, jsonContentType := true }

/-- savePrompt (column-definition.js lines 467-515), same token source. -/
def savePromptRequest (env : Env) : Option MutRequest :=
  (env.formCsrfmiddlewaretoken).map fun t =>
    { method := "POST", csrfHeader := some t, jsonContentType := true }

/-- cancelJob in the banner (part_002 lines 416-441), which uses
getCsrfToken. -/
def cancelJobRequest (env : Env) : MutRequest :=
  { method := "POST", csrfHeader := some (getCsrfToken env), jsonContentType := true }

end Csrf

namespace SpecModel

/-- Modelled from the spec: the clamp into the range 0 to 100 that the
specification says the renderer applies to progress_percent; the sources
contain no such clamp. -/
def clamp (p : Int) : Int := max 0 (min 100 p)

/-- Modelled from the spec: the phase order as the specification lists it,
with sending placed before extracting and processing. -/
def phaseList : List String :=
  ["initializing", "preparing", "sending", "extracting", "processing", "completed"]

/-- Index of a phase in the specified order. -/
def phaseIdx (p : String) : Nat := phaseList.indexOf p

/-- Modelled from the spec: the marking rule as the specification states
it over its own phase order. -/
def phaseMark (phase phaseName : String) : PhaseMark :=
  if phaseName = phase then .active
  else if phaseIdx phaseName < phaseIdx phase then .complete
  else .pending

/-- Modelled from the spec: keyword inference over processing_details in
the listed priority order, defaulting to initializing. -/
def inferPhase (details : String) : String :=
  (phaseList.find? fun p => jsIncludes details p).getD "initializing"

end SpecModel

/-- Payload carrying a terminal status together with a non-empty error
field, as the status endpoint reports for a failed job. -/
def errorPayload : Payload := { status := "error", error := some "boom" }

/-- Payload reporting plain completion, with no error field. -/
def completedPayload : Payload := { status := "completed" }

/-- Payload with an out-of-range progress percentage. -/
def overflowPayload : Payload := { status := "processing", progress_percent := some 150 }

/-- Payload with prose details and no explicit current_phase field. -/
def detailsOnlyPayload : Payload :=
  { status := "processing", processing_details := some "sending request to the model" }

/-- StatusUpdater state one failure away from the retry limit. -/
def suNearLimit : StatusUpdater.State :=
  { pollTimer := none, currentJobId := some "job-1", retryCount := 4
  , fetchCount := 5, inflight := 1, errorDisplay := none }

/-- StatusUpdater state with one outstanding fetch and no failed retries. -/
def suFreshPoll : StatusUpdater.State :=
  { pollTimer := none, currentJobId := some "job-1", retryCount := 0
  , fetchCount := 1, inflight := 1, errorDisplay := none }

/-- Hidden banner with the interval timer running and no tracked jobs. -/
def bannerHidden : Banner.BState :=
  { trackedJobs := [], bannerVisible := false, activeBanner := none
  , pollTimerOn := true, fetchCount := 3, inflight := 0, surfacedErrors := [] }

/-- Stored tracked-jobs record with six live entries. -/
def storedSix : List Banner.Job :=
  [{ id := 1 }, { id := 2 }, { id := 3 }, { id := 4 }, { id := 5 }, { id := 6 }]

/-- Tracked list already at the default cap of five jobs. -/
def trackedFive : List Banner.Job :=
  [{ id := 10 }, { id := 11 }, { id := 12 }, { id := 13 }, { id := 14 }]

/-- Environment in which all three token sources are populated with
distinct values. -/
def envBoth : Csrf.Env :=
  { cookieCsrftoken := some "cookie-tok", metaCsrfToken := some "meta-tok"
  , formCsrfmiddlewaretoken := some "form-tok" }

namespace JobProgress

theorem wf_init : Wf init := by intro _; rfl

theorem wf_startTracking (s : State) (hs : Wf s) : Wf (startTracking s) := by
  unfold startTracking pollStart Wf
  split
  · exact hs
  · intro h; exact absurd h (by simp)

theorem wf_stopTracking (s : State) (hs : Wf s) : Wf (stopTracking s) := by
  unfold stopTracking Wf
  split
  · intro _; rfl
  · exact hs

theorem wf_settleFailure (s : State) (hs : Wf s) : Wf (settleFailure s) := by
  unfold settleFailure
  have h1 : Wf { s with inflight := s.inflight - 1 } := hs
  split
  · exact wf_stopTracking _ h1
  · exact h1

theorem wf_settleSuccess (s : State) (hs : Wf s) (d : Payload) :
    Wf (settleSuccess s d) := by
  unfold settleSuccess
  have h1 : Wf { s with inflight := s.inflight - 1, lastStatus := some d.status } := hs
  split
  · exact wf_settleFailure s hs
  · split
    · exact wf_stopTracking _ h1
    · exact h1

theorem wf_step (s : State) (hs : Wf s) (e : Event) : Wf (step s e) := by
  cases e with
  | start => exact wf_startTracking s hs
  | stop => exact wf_stopTracking s hs
  | tick =>
    simp only [step]
    split
    · exact hs
    · exact hs
  | settleOk d =>
    simp only [step]
    split
    · exact hs
    · exact wf_settleSuccess s hs d
  | settleErr =>
    simp only [step]
    split
    · exact hs
    · exact wf_settleFailure s hs

theorem wf_run (s : State) (hs : Wf s) (evs : List Event) : Wf (run s evs) := by
  induction evs generalizing s with
  | nil => exact hs
  | cons e evs ih => exact ih (step s e) (wf_step s hs e)

theorem stopped_step (s : State) (e : Event) (h1 : s.isActive = false)
    (h2 : s.timerOn = false) (hne : e ≠ Event.start) :
    (step s e).isActive = false ∧ (step s e).timerOn = false ∧
      (step s e).fetchCount = s.fetchCount := by
  cases e with
  | start => exact absurd rfl hne
  | stop => simp [step, stopTracking, h1, h2]
  | tick => simp [step, h1, h2]
  | settleOk d =>
    by_cases h0 : s.inflight = 0
    · simp [step, h0, h1, h2]
    · simp only [step, if_neg h0]
      unfold settleSuccess settleFailure stopTracking
      split
      · split <;> simp [h1, h2]
      · split
        · simp [h1, h2]
        · simp [h1, h2]
  | settleErr =>
    by_cases h0 : s.inflight = 0
    · simp [step, h0, h1, h2]
    · simp only [step, if_neg h0]
      unfold settleFailure stopTracking
      split <;> simp [h1, h2]

theorem stopped_run (s : State) (evs : List Event) (h1 : s.isActive = false)
    (h2 : s.timerOn = false) (hns : Event.start ∉ evs) :
    (run s evs).fetchCount = s.fetchCount ∧ (run s evs).isActive = false ∧
      (run s evs).timerOn = false := by
  induction evs generalizing s with
  | nil => exact ⟨rfl, h1, h2⟩
  | cons e evs ih =>
    have hne : e ≠ Event.start := by
      intro h
      exact hns (h ▸ List.mem_cons_self e evs)
    have hmem : Event.start ∉ evs := fun h => hns (List.mem_cons_of_mem e h)
    obtain ⟨ia, it, fc⟩ := stopped_step s e h1 h2 hne
    have hrest := ih (step s e) ia it hmem
    refine ⟨?_, hrest.2.1, hrest.2.2⟩
    calc (run s (e :: evs)).fetchCount
        = (run (step s e) evs).fetchCount := rfl
      _ = (step s e).fetchCount := hrest.1
      _ = s.fetchCount := fc

/-- Claim C10: stopTracking is idempotent, always leaves the instance
without a pending timer, and startTracking while tracking is already
active is a complete no-op, so no extra fetch and no second repeating
timer is ever created. -/
theorem jp_stop_idempotent_start_guard (s : State) (hs : Wf s) :
    stopTracking (stopTracking s) = stopTracking s ∧
    (stopTracking s).timerOn = false ∧
    (stopTracking s).isActive = false ∧
    (s.isActive = true → step s Event.start = s) := by
  by_cases hA : s.isActive = true
  · refine ⟨?_, ?_, ?_, ?_⟩
    · simp [stopTracking, hA]
    · simp [stopTracking, hA]
    · simp [stopTracking, hA]
    · intro _
      show startTracking s = s
      simp [startTracking, hA]
  · have hA2 : s.isActive = false := by simpa using hA
    refine ⟨?_, ?_, ?_, ?_⟩
    · simp [stopTracking, hA]
    · simp [stopTracking, hA, hs hA2]
    · simp [stopTracking, hA, hA2]
    · intro h
      exact absurd h hA

/-- Claim C10 witness at a concrete freshly started tracker. -/
theorem jp_stop_idempotent_start_guard_witness :
    stopTracking (stopTracking (run init [Event.start])) =
      stopTracking (run init [Event.start]) ∧
    (stopTracking (run init [Event.start])).timerOn = false ∧
    (stopTracking (run init [Event.start])).isActive = false ∧
    step (run init [Event.start]) Event.start = run init [Event.start] := by
  have h := jp_stop_idempotent_start_guard (run init [Event.start]) (by decide)
  exact ⟨h.1, h.2.1, h.2.2.1, h.2.2.2 (by decide)⟩

/-- Claim C2 counterexample: the status endpoint reports a failed job with
status error and a non-empty error message; the success handler throws on
the error field before the terminal check, so the poller neither cancels
its timer nor fires onComplete, and the next interval tick issues another
fetch. -/
theorem jp_terminal_stop_counterexample :
    errorPayload.status ∈ terminalStatuses ∧
    (run init [Event.start, Event.settleOk errorPayload, Event.tick]).fetchCount = 2 ∧
    (run init [Event.start, Event.settleOk errorPayload, Event.tick]).timerOn = true ∧
    (run init [Event.start, Event.settleOk errorPayload, Event.tick]).completeCalls = [] := by
  decide

/-- Claim C2 amended: once a poll returns a payload whose status is
terminal and whose error field is empty or absent, the poller cancels its
timer, invokes onComplete with that payload, and issues no further fetch
while startTracking is not called again; a terminal payload with a
non-empty error field takes the failure path instead and does not stop the
poller until the total poll count exceeds 10. -/
theorem jp_terminal_stop_amended (s : State) (d : Payload) (evs : List Event)
    (hterm : d.status ∈ terminalStatuses) (herr : jsStrTruthy d.error = false)
    (hfl : ¬ s.inflight = 0) (hs : Wf s) (hns : Event.start ∉ evs) :
    (step s (Event.settleOk d)).isActive = false ∧
    (step s (Event.settleOk d)).timerOn = false ∧
    (step s (Event.settleOk d)).completeCalls = s.completeCalls ++ [d] ∧
    (run (step s (Event.settleOk d)) evs).fetchCount =
      (step s (Event.settleOk d)).fetchCount := by
  have hcond : ¬ (jsStrTruthy d.error = true) := by simp [herr]
  by_cases hA : s.isActive = true
  · have hred : step s (Event.settleOk d) =
        { isActive := false, timerOn := false, pollCount := s.pollCount
        , lastStatus := some d.status, fetchCount := s.fetchCount
        , inflight := s.inflight - 1, completeCalls := s.completeCalls ++ [d] } := by
      simp [step, if_neg hfl, settleSuccess, if_neg hcond, if_pos hterm, stopTracking, hA]
    rw [hred]
    exact ⟨rfl, rfl, rfl, (stopped_run _ evs rfl rfl hns).1⟩
  · have hA2 : s.isActive = false := by simpa using hA
    have hT2 : s.timerOn = false := hs hA2
    have hred : step s (Event.settleOk d) =
        { isActive := s.isActive, timerOn := s.timerOn, pollCount := s.pollCount
        , lastStatus := some d.status, fetchCount := s.fetchCount
        , inflight := s.inflight - 1, completeCalls := s.completeCalls ++ [d] } := by
      simp [step, if_neg hfl, settleSuccess, if_neg hcond, if_pos hterm, stopTracking, hA]
    rw [hred]
    exact ⟨hA2, hT2, rfl,
      (stopped_run
        { isActive := s.isActive, timerOn := s.timerOn, pollCount := s.pollCount
        , lastStatus := some d.status, fetchCount := s.fetchCount
        , inflight := s.inflight - 1, completeCalls := s.completeCalls ++ [d] }
        evs hA2 hT2 hns).1⟩

/-- Claim C2 amended witness at a concrete freshly started tracker that
receives a clean completed payload. -/
theorem jp_terminal_stop_amended_witness :
    (step (run init [Event.start]) (Event.settleOk completedPayload)).isActive = false ∧
    (step (run init [Event.start]) (Event.settleOk completedPayload)).timerOn = false ∧
    (step (run init [Event.start]) (Event.settleOk completedPayload)).completeCalls =
      (run init [Event.start]).completeCalls ++ [completedPayload] ∧
    (run (step (run init [Event.start]) (Event.settleOk completedPayload))
        [Event.tick, Event.stop]).fetchCount =
      (step (run init [Event.start]) (Event.settleOk completedPayload)).fetchCount :=
  jp_terminal_stop_amended (run init [Event.start]) completedPayload
    [Event.tick, Event.stop] (by decide) (by decide) (by decide) (by decide) (by decide)

/-- Claim C4 counterexample: after startTracking and one firing of the
repeating interval timer with no settle in between, two poll requests of
the page-level poller are in flight at once, so polling is driven by the
wall clock rather than serialized on the previous response. -/
theorem poll_serialization_counterexample :
    (run init [Event.start, Event.tick]).inflight = 2 ∧
    ¬ (run init [Event.start, Event.tick]).inflight ≤ 1 := by decide

end JobProgress

/-- Claim C4 amended: JobProgress and the banner both poll from a
setInterval timer: every tick issues a fetch regardless of how many
earlier requests are still unsettled, so more than one request per poller
can be in flight and the next fetch is not gated on the previous one
settling. -/
theorem poll_fixed_interval_amended (s : JobProgress.State) (b : Banner.BState)
    (hs : s.timerOn = true) (hb : b.pollTimerOn = true) :
    (JobProgress.step s JobProgress.Event.tick).fetchCount = s.fetchCount + 1 ∧
    (JobProgress.step s JobProgress.Event.tick).inflight = s.inflight + 1 ∧
    (Banner.tick b).fetchCount = b.fetchCount + 1 ∧
    (Banner.tick b).inflight = b.inflight + 1 := by
  refine ⟨?_, ?_, ?_, ?_⟩ <;>
    simp [JobProgress.step, JobProgress.pollStart, Banner.tick, Banner.issueFetch, hs, hb]

namespace StatusUpdater

theorem su_stopped_step (opts : Options) (s : State) (e : Event)
    (h1 : s.pollTimer = none) (h2 : s.inflight = 0)
    (hne : ∀ j, e ≠ Event.startPoll j) :
    (step opts s e).pollTimer = none ∧ (step opts s e).inflight = 0 ∧
      (step opts s e).fetchCount = s.fetchCount := by
  cases e with
  | startPoll j => exact absurd rfl (hne j)
  | stopPoll => simp [step, stopPolling, h1, h2]
  | timerFire => simp [step, h1, h2]
  | settleOk st jst => simp [step, h1, h2]
  | settleErr => simp [step, h1, h2]

theorem su_stopped_run (opts : Options) (s : State) (evs : List Event)
    (h1 : s.pollTimer = none) (h2 : s.inflight = 0) (hns : noStart evs = true) :
    (run opts s evs).fetchCount = s.fetchCount ∧
      (run opts s evs).pollTimer = none ∧ (run opts s evs).inflight = 0 := by
  induction evs generalizing s with
  | nil => exact ⟨rfl, h1, h2⟩
  | cons e evs ih =>
    have hsplit : isNotStart e = true ∧ evs.all isNotStart = true := by
      simpa [noStart, List.all_cons, Bool.and_eq_true] using hns
    have hne : ∀ j, e ≠ Event.startPoll j := by
      intro j hj
      subst hj
      exact absurd hsplit.1 (by simp [isNotStart])
    obtain ⟨a, b, c⟩ := su_stopped_step opts s e h1 h2 hne
    have hrest := ih (step opts s e) a b hsplit.2
    refine ⟨?_, hrest.2.1, hrest.2.2⟩
    calc (run opts s (e :: evs)).fetchCount
        = (run opts (step opts s e) evs).fetchCount := rfl
      _ = (step opts s e).fetchCount := hrest.1
      _ = s.fetchCount := c

/-- Claim C1: on every fetch failure of the status poller the retry
counter is incremented; when it reaches maxRetries (default 5) polling
stops, the fatal cannot-reach-server message is displayed and no further
fetch is issued; otherwise the next poll is scheduled after
min(30000, pollInterval * 2 ^ retryCount), which for the default base
interval 2000 yields the delays 4000, 8000, 16000, 30000, 30000 at retry
counts 1 to 5, a sequence that is non-decreasing and capped at 30000 ms. -/
theorem su_failure_backoff_and_stop (opts : Options) (s : State) (evs : List Event)
    (hfl : s.inflight = 1) (htm : s.pollTimer = none) (hns : noStart evs = true) :
    (step opts s Event.settleErr).retryCount = s.retryCount + 1 ∧
    (opts.maxRetries ≤ s.retryCount + 1 →
      (step opts s Event.settleErr).pollTimer = none ∧
      (step opts s Event.settleErr).errorDisplay = some fatalMessage ∧
      (run opts (step opts s Event.settleErr) evs).fetchCount =
        (step opts s Event.settleErr).fetchCount) ∧
    (s.retryCount + 1 < opts.maxRetries →
      (step opts s Event.settleErr).pollTimer =
        some (backoffDelay opts.pollInterval (s.retryCount + 1)) ∧
      (step opts s Event.settleErr).errorDisplay = s.errorDisplay) ∧
    [1, 2, 3, 4, 5].map (backoffDelay 2000) = [4000, 8000, 16000, 30000, 30000] ∧
    (∀ k, backoffDelay opts.pollInterval k ≤ backoffDelay opts.pollInterval (k + 1)) ∧
    (∀ k, backoffDelay opts.pollInterval k ≤ 30000) := by
  have h0 : ¬ s.inflight = 0 := by omega
  refine ⟨?_, ?_, ?_, by decide, ?_, ?_⟩
  · simp only [step, if_neg h0]
    unfold settleFailure
    split <;> rfl
  · intro hmax
    have hred : step opts s Event.settleErr =
        { pollTimer := s.pollTimer, currentJobId := s.currentJobId
        , retryCount := s.retryCount + 1, fetchCount := s.fetchCount
        , inflight := s.inflight - 1, errorDisplay := some fatalMessage } := by
      simp only [step, if_neg h0, settleFailure, if_pos hmax]
    rw [hred]
    refine ⟨htm, rfl, ?_⟩
    exact (su_stopped_run opts
      { pollTimer := s.pollTimer, currentJobId := s.currentJobId
      , retryCount := s.retryCount + 1, fetchCount := s.fetchCount
      , inflight := s.inflight - 1, errorDisplay := some fatalMessage }
      evs htm (by show s.inflight - 1 = 0; omega) hns).1
  · intro hlt
    have hnot : ¬ opts.maxRetries ≤ s.retryCount + 1 := by omega
    simp only [step, if_neg h0, settleFailure, if_neg hnot]
    constructor <;> simp
  · intro k
    unfold backoffDelay
    exact min_le_min (le_refl 30000)
      (Nat.mul_le_mul (Nat.le_refl _) (Nat.pow_le_pow_right (by norm_num) (Nat.le_succ k)))
  · intro k
    exact min_le_left _ _

/-- Claim C1 witness: with the default options, a state four failed
retries deep takes the fatal branch on the next failure, shows the message
and issues no fetch through a later timer fire or settling. -/
theorem su_failure_backoff_and_stop_witness :
    defaults.maxRetries ≤ suNearLimit.retryCount + 1 ∧
    (step defaults suNearLimit Event.settleErr).retryCount = suNearLimit.retryCount + 1 ∧
    (step defaults suNearLimit Event.settleErr).pollTimer = none ∧
    (step defaults suNearLimit Event.settleErr).errorDisplay = some fatalMessage ∧
    (run defaults (step defaults suNearLimit Event.settleErr)
        [Event.timerFire, Event.settleErr]).fetchCount =
      (step defaults suNearLimit Event.settleErr).fetchCount := by
  have h := su_failure_backoff_and_stop defaults suNearLimit
    [Event.timerFire, Event.settleErr] (by decide) (by decide) (by decide)
  exact ⟨by decide, h.1, (h.2.1 (by decide)).1, (h.2.1 (by decide)).2.1,
    (h.2.1 (by decide)).2.2⟩

end StatusUpdater

/-- Claim C3 counterexample: a progress_percent of 150 is rendered as 150
by the page renderer (width and aria value) and by the banner, not clamped
to 100. -/
theorem render_clamp_counterexample :
    (JobProgress.updateDisplay overflowPayload).progressWidth = 150 ∧
    (JobProgress.updateDisplay overflowPayload).ariaValuenow = 150 ∧
    Banner.progressOf { id := 7, progress_percent := some 150 } = 150 ∧
    SpecModel.clamp 150 = 100 ∧
    (JobProgress.updateDisplay overflowPayload).progressWidth ≠ SpecModel.clamp 150 ∧
    ¬ (JobProgress.updateDisplay overflowPayload).progressWidth ≤ 100 := by decide

/-- Claim C3 amended: the rendered bar width and aria value always equal
each other and pass progress_percent through without clamping: an absent
or zero field renders as 0, and any other value, inside the range 0 to 100
or not, renders as itself; the banner bar behaves the same way. -/
theorem render_progress_passthrough_amended (d : Payload) (j : Banner.Job) (p : Int)
    (hd : d.progress_percent = some p) (hp : p ≠ 0) (hj : j.progress_percent = some p) :
    (JobProgress.updateDisplay d).ariaValuenow = (JobProgress.updateDisplay d).progressWidth ∧
    (JobProgress.updateDisplay d).progressWidth = p ∧
    Banner.progressOf j = p ∧
    (∀ d2 : Payload, d2.progress_percent = none →
      (JobProgress.updateDisplay d2).progressWidth = 0) := by
  refine ⟨rfl, ?_, ?_, ?_⟩
  · simp [JobProgress.updateDisplay, jsOrZeroInt, hd, hp]
  · simp [Banner.progressOf, jsOrZeroInt, hj, hp]
  · intro d2 h
    simp [JobProgress.updateDisplay, jsOrZeroInt, h]

/-- Claim C3 amended witness at the concrete out-of-range payload. -/
theorem render_progress_passthrough_amended_witness :
    (JobProgress.updateDisplay overflowPayload).ariaValuenow =
      (JobProgress.updateDisplay overflowPayload).progressWidth ∧
    (JobProgress.updateDisplay overflowPayload).progressWidth = 150 ∧
    Banner.progressOf { id := 7, progress_percent := some 150 } = 150 := by
  have h := render_progress_passthrough_amended overflowPayload
    { id := 7, progress_percent := some 150 } 150 (by decide) (by decide) (by decide)
  exact ⟨h.1, h.2.1, h.2.2.1⟩

/-- Claim C5 counterexample: in the source order extracting precedes
sending, so with current phase sending the extracting element is marked
complete where the specified order would leave it pending; and a payload
without a current_phase field leaves the phase display untouched even
though its processing_details contain the keyword sending, which the
specified inference would select. -/
theorem phase_display_counterexample :
    JobProgress.phaseMark "sending" "extracting" = PhaseMark.complete ∧
    SpecModel.phaseMark "sending" "extracting" = PhaseMark.pending ∧
    JobProgress.phaseMark "sending" "extracting" ≠
      SpecModel.phaseMark "sending" "extracting" ∧
    (JobProgress.updateDisplay detailsOnlyPayload).phase = none ∧
    SpecModel.inferPhase "sending request to the model" = "sending" := by decide

/-- Claim C5 amended: the JobProgress phase indicator follows the source
order initializing, preparing, extracting, processing, sending, completed:
within that list the current phase is marked active, every phase strictly
before it complete and every later one pending; and the phase display is
only updated when the payload carries a non-empty current_phase field,
never inferred from processing_details. -/
theorem phase_display_amended (p q : String) (d : Payload)
    (hp : p ∈ JobProgress.phaseNames) (hq : q ∈ JobProgress.phaseNames)
    (hd : d.current_phase = none) :
    (JobProgress.phaseMark q p = PhaseMark.active ↔ p = q) ∧
    (JobProgress.phaseMark q p = PhaseMark.complete ↔
      p ≠ q ∧ JobProgress.phaseNames.indexOf p < JobProgress.phaseNames.indexOf q) ∧
    (JobProgress.phaseMark q p = PhaseMark.pending ↔
      p ≠ q ∧ ¬ JobProgress.phaseNames.indexOf p < JobProgress.phaseNames.indexOf q) ∧
    (JobProgress.updateDisplay d).phase = none := by
  refine ⟨?_, ?_, ?_, ?_⟩
  · fin_cases hp <;> fin_cases hq <;> decide
  · fin_cases hp <;> fin_cases hq <;> decide
  · fin_cases hp <;> fin_cases hq <;> decide
  · simp [JobProgress.updateDisplay, JobProgress.phaseDispatch, hd]

/-- Claim C5 amended witness at the extracting and sending pair together
with the concrete prose-only payload. -/
theorem phase_display_amended_witness :
    (JobProgress.phaseMark "sending" "extracting" = PhaseMark.complete ↔
      "extracting" ≠ "sending" ∧
        JobProgress.phaseNames.indexOf "extracting" <
          JobProgress.phaseNames.indexOf "sending") ∧
    (JobProgress.updateDisplay detailsOnlyPayload).phase = none := by
  have h := phase_display_amended "extracting" "sending" detailsOnlyPayload
    (by decide) (by decide) (by decide)
  exact ⟨h.2.1, h.2.2.2⟩

/-- Claim C6 counterexample: the banner renders in_progress with the text
In_progress and the class bg-secondary rather than Processing and primary,
gives pending and extracting the class bg-secondary rather than warning
and info, and the page status badge renders cancelled as Unknown rather
than Cancelled. -/
theorem status_badge_counterexample :
    Banner.formatStatus (some "in_progress") = "In_progress" ∧
    Banner.formatStatus (some "in_progress") ≠ "Processing" ∧
    Banner.getStatusClass (some "pending") = "bg-secondary" ∧
    Banner.getStatusClass (some "pending") ≠ "bg-warning" ∧
    Banner.getStatusClass (some "extracting") = "bg-secondary" ∧
    StatusUpdater.badge "cancelled" = ("Unknown", "bg-secondary") ∧
    StatusUpdater.badge "cancelled" ≠ ("Cancelled", "bg-secondary") := by decide

/-- Claim C6 amended: the two badge renderers follow two different
tables. The page status badge maps pending to Pending and warning,
in_progress and processing to Processing and primary, waiting to Waiting
and info, extracting to Extracting and info, completed to Completed and
success, error and failed to Error and danger, and everything else,
cancelled included, to Unknown and secondary. The banner maps, after
lowercasing, running to Running and primary, processing to Processing and
primary, waiting to Waiting and info, completed to Completed and success,
error and failed to Error and danger, cancelled to Cancelled and
secondary, the class for warning to warning, and any other non-empty
status to its raw text with the first letter capitalized and the
secondary class. -/
theorem status_badge_amended (s : String)
    (hs : s ≠ "" ∧ jsToLower s ∉
      ["running", "waiting", "processing", "completed", "error", "failed",
        "cancelled", "warning"]) :
    Banner.formatStatus (some s) = jsCapitalize s ∧
    Banner.getStatusClass (some s) = "bg-secondary" ∧
    StatusUpdater.badge "pending" = ("Pending", "bg-warning") ∧
    StatusUpdater.badge "in_progress" = ("Processing", "bg-primary") ∧
    StatusUpdater.badge "processing" = ("Processing", "bg-primary") ∧
    StatusUpdater.badge "waiting" = ("Waiting", "bg-info") ∧
    StatusUpdater.badge "extracting" = ("Extracting", "bg-info") ∧
    StatusUpdater.badge "completed" = ("Completed", "bg-success") ∧
    StatusUpdater.badge "error" = ("Error", "bg-danger") ∧
    StatusUpdater.badge "failed" = ("Error", "bg-danger") ∧
    StatusUpdater.badge "cancelled" = ("Unknown", "bg-secondary") ∧
    Banner.formatStatus (some "running") = "Running" ∧
    Banner.formatStatus (some "waiting") = "Waiting" ∧
    Banner.formatStatus (some "processing") = "Processing" ∧
    Banner.formatStatus (some "completed") = "Completed" ∧
    Banner.formatStatus (some "error") = "Error" ∧
    Banner.formatStatus (some "failed") = "Error" ∧
    Banner.formatStatus (some "cancelled") = "Cancelled" ∧
    Banner.getStatusClass (some "running") = "bg-primary" ∧
    Banner.getStatusClass (some "processing") = "bg-primary" ∧
    Banner.getStatusClass (some "waiting") = "bg-info" ∧
    Banner.getStatusClass (some "completed") = "bg-success" ∧
    Banner.getStatusClass (some "error") = "bg-danger" ∧
    Banner.getStatusClass (some "failed") = "bg-danger" ∧
    Banner.getStatusClass (some "cancelled") = "bg-secondary" ∧
    Banner.getStatusClass (some "warning") = "bg-warning" := by
  obtain ⟨h0, hmem⟩ := hs
  simp only [List.mem_cons, List.not_mem_nil, or_false, not_or] at hmem
  obtain ⟨h1, h2, h3, h4, h5, h6, h7, h8⟩ := hmem
  refine ⟨?_, ?_, ?_⟩
  · simp [Banner.formatStatus, h0, h1, h2, h3, h4, h5, h6, h7]
  · simp [Banner.getStatusClass, h0, h1, h2, h3, h4, h5, h6, h7, h8]
  · decide

/-- Claim C6 amended witness at the concrete unknown status paused. -/
theorem status_badge_amended_witness :
    Banner.formatStatus (some "paused") = jsCapitalize "paused" ∧
    Banner.getStatusClass (some "paused") = "bg-secondary" := by
  have h := status_badge_amended "paused" (by decide)
  exact ⟨h.1, h.2.1⟩

/-- Claim C4 amended witness at a concrete active tracker and the hidden
banner with its timer running. -/
theorem poll_fixed_interval_amended_witness :
    (JobProgress.step (JobProgress.run JobProgress.init [JobProgress.Event.start])
        JobProgress.Event.tick).fetchCount =
      (JobProgress.run JobProgress.init [JobProgress.Event.start]).fetchCount + 1 ∧
    (JobProgress.step (JobProgress.run JobProgress.init [JobProgress.Event.start])
        JobProgress.Event.tick).inflight =
      (JobProgress.run JobProgress.init [JobProgress.Event.start]).inflight + 1 ∧
    (Banner.tick bannerHidden).fetchCount = bannerHidden.fetchCount + 1 ∧
    (Banner.tick bannerHidden).inflight = bannerHidden.inflight + 1 :=
  poll_fixed_interval_amended (JobProgress.run JobProgress.init [JobProgress.Event.start])
    bannerHidden (by decide) (by decide)

/-- Claim C7: an HTTP 302 or 401 from the active-jobs listing is handled
exactly like an empty active-jobs list: the banner ends up hidden or stays
hidden, no error is surfaced to the user, the tracked list, the repeating
timer and the fetch count are untouched, and the next tick polls again as
usual. -/
theorem banner_auth_failure_graceful (maxT : Nat) (s : Banner.BState) (st : Nat)
    (body : Option (List Banner.Job)) (hst : st = 302 ∨ st = 401)
    (hbv : s.bannerVisible = true → s.activeBanner.isSome) :
    (Banner.handleActiveJobsResponse maxT s st body).bannerVisible = false ∧
    (Banner.handleActiveJobsResponse maxT s st body).trackedJobs = s.trackedJobs ∧
    (Banner.handleActiveJobsResponse maxT s st body).pollTimerOn = s.pollTimerOn ∧
    (Banner.handleActiveJobsResponse maxT s st body).fetchCount = s.fetchCount ∧
    (Banner.handleActiveJobsResponse maxT s st body).surfacedErrors = s.surfacedErrors ∧
    (s.pollTimerOn = true →
      (Banner.tick (Banner.handleActiveJobsResponse maxT s st body)).fetchCount =
        s.fetchCount + 1) := by
  have hred : Banner.handleActiveJobsResponse maxT s st body =
      Banner.processActiveJobs maxT s [] := by
    unfold Banner.handleActiveJobsResponse
    rcases hst with h | h <;> simp [h]
  have hempty : Banner.processActiveJobs maxT s [] =
      (if s.activeBanner.isSome then Banner.hideBanner s else s) := by
    simp [Banner.processActiveJobs]
  rw [hred, hempty]
  by_cases hab : s.activeBanner.isSome
  · simp only [if_pos hab]
    refine ⟨rfl, rfl, rfl, rfl, rfl, ?_⟩
    intro ht
    simp [Banner.tick, Banner.hideBanner, Banner.issueFetch, ht]
  · have hv : s.bannerVisible = false := by
      cases hbool : s.bannerVisible
      · rfl
      · exact absurd (hbv hbool) hab
    simp only [if_neg hab]
    refine ⟨hv, by simp, by simp, by simp, by simp, ?_⟩
    intro ht
    simp [Banner.tick, Banner.issueFetch, ht]

/-- Claim C7 witness at the concrete hidden banner receiving a 401. -/
theorem banner_auth_failure_graceful_witness :
    (Banner.handleActiveJobsResponse 5 bannerHidden 401 none).bannerVisible = false ∧
    (Banner.handleActiveJobsResponse 5 bannerHidden 401 none).trackedJobs =
      bannerHidden.trackedJobs ∧
    (Banner.handleActiveJobsResponse 5 bannerHidden 401 none).pollTimerOn =
      bannerHidden.pollTimerOn ∧
    (Banner.handleActiveJobsResponse 5 bannerHidden 401 none).fetchCount =
      bannerHidden.fetchCount ∧
    (Banner.handleActiveJobsResponse 5 bannerHidden 401 none).surfacedErrors =
      bannerHidden.surfacedErrors ∧
    (Banner.tick (Banner.handleActiveJobsResponse 5 bannerHidden 401 none)).fetchCount =
      bannerHidden.fetchCount + 1 := by
  have h := banner_auth_failure_graceful 5 bannerHidden 401 none (Or.inr rfl) (by decide)
  exact ⟨h.1, h.2.1, h.2.2.1, h.2.2.2.1, h.2.2.2.2.1, h.2.2.2.2.2 (by decide)⟩

/-- Claim C8 counterexample: a stored record with six live jobs is loaded
verbatim at startup: loadFromStorage filters stale completed jobs but
never truncates, so the loaded list exceeds the cap of five. -/
theorem tracked_jobs_bound_counterexample :
    (Banner.loadFromStorage 0 (some storedSix)).length = 6 ∧
    ¬ (Banner.loadFromStorage 0 (some storedSix)).length ≤ 5 := by decide

/-- Claim C8 amended: trackJob keeps the most-recent-first list within the
cap: updating an already tracked id preserves the length, inserting a new
job prepends it and truncates the list to the cap, dropping the oldest
entry; loadFromStorage however only filters completed jobs older than an
hour and never truncates, so the list loaded at startup honours the cap
only when the stored record already does. -/
theorem tracked_jobs_bound_amended (maxT : Nat) (jobs stored : List Banner.Job)
    (j : Banner.Job) (now : Int)
    (hlen : jobs.length ≤ maxT) (hst : stored.length ≤ maxT) :
    (Banner.trackJob maxT jobs j).length ≤ maxT ∧
    (∀ i, jobs.findIdx? (fun job => job.id == j.id) = some i →
      (Banner.trackJob maxT jobs j).length = jobs.length) ∧
    (jobs.findIdx? (fun job => job.id == j.id) = none → 0 < maxT →
      Banner.trackJob maxT jobs j = j :: jobs.take (maxT - 1) ∨
        (jobs.length + 1 ≤ maxT ∧ Banner.trackJob maxT jobs j = j :: jobs)) ∧
    (Banner.loadFromStorage now (some stored)).length ≤ maxT ∧
    (Banner.loadFromStorage now (some stored)).length ≤ stored.length := by
  have hload : (Banner.loadFromStorage now (some stored)).length ≤ stored.length := by
    simp only [Banner.loadFromStorage]
    exact List.length_filter_le _ _
  refine ⟨?_, ?_, ?_, le_trans hload hst, hload⟩
  · unfold Banner.trackJob
    cases hfi : jobs.findIdx? (fun job => job.id == j.id) with
    | none =>
      dsimp only
      split
      · rw [List.length_take]
        exact Nat.min_le_left _ _
      · rename_i hle
        simp only [List.length_cons]
        omega
    | some i =>
      dsimp only
      rw [List.length_set]
      exact hlen
  · intro i hfound
    unfold Banner.trackJob
    rw [hfound]
    dsimp only
    rw [List.length_set]
  · intro hnone hpos
    unfold Banner.trackJob
    rw [hnone]
    dsimp only
    split
    · left
      obtain ⟨m, rfl⟩ := Nat.exists_eq_succ_of_ne_zero (Nat.pos_iff_ne_zero.mp hpos)
      simp [List.take_succ_cons]
    · rename_i hle
      right
      refine ⟨?_, rfl⟩
      omega

/-- Claim C8 amended witness: inserting a fresh job into the full
five-entry list keeps the cap by dropping the oldest entry, and loading
a five-entry stored record keeps the cap. -/
theorem tracked_jobs_bound_amended_witness :
    (Banner.trackJob 5 trackedFive { id := 99 }).length ≤ 5 ∧
    Banner.trackJob 5 trackedFive { id := 99 } =
      ({ id := 99 } : Banner.Job) :: trackedFive.take 4 ∧
    (Banner.loadFromStorage 0 (some trackedFive)).length ≤ 5 := by
  have h := tracked_jobs_bound_amended 5 trackedFive trackedFive
    { id := 99 } 0 (by decide) (by decide)
  refine ⟨h.1, ?_, h.2.2.2.1⟩
  rcases h.2.2.1 (by decide) (by decide) with h3 | h3
  · exact h3
  · exact absurd h3.1 (by decide)

/-- Claim C9 counterexample: with all three token sources present and
distinct, the column save request carries the hidden form input value,
not the cookie value with meta fallback that getCsrfToken yields. -/
theorem csrf_source_counterexample :
    Csrf.saveColumnRequest envBoth =
      some { method := "POST", csrfHeader := some "form-tok", jsonContentType := true } ∧
    Csrf.getCsrfToken envBoth = "cookie-tok" ∧
    (Csrf.saveColumnRequest envBoth).map (fun r => r.csrfHeader) ≠
      some (some (Csrf.getCsrfToken envBoth)) := by decide

/-- Claim C9 amended: every mutating request is a POST carrying the
X-CSRFToken header, but from two distinct sources: the banner job-cancel
call reads the csrftoken cookie with the csrf-token meta tag as fallback,
while the column editor calls (column save, column delete, apply defaults,
prompt save) read the hidden form input named csrfmiddlewaretoken. -/
theorem csrf_source_amended (env : Csrf.Env) (t v : String)
    (hf : env.formCsrfmiddlewaretoken = some t) :
    Csrf.saveColumnRequest env =
      some { method := "POST", csrfHeader := some t, jsonContentType := true } ∧
    Csrf.deleteColumnRequest env =
      some { method := "POST", csrfHeader := some t, jsonContentType := false } ∧
    Csrf.applyDefaultsRequest env =
      some { method := "POST", csrfHeader := some t, jsonContentType := true } ∧
    Csrf.savePromptRequest env =
      some { method := "POST", csrfHeader := some t, jsonContentType := true } ∧
    (Csrf.cancelJobRequest env).method = "POST" ∧
    (Csrf.cancelJobRequest env).csrfHeader = some (Csrf.getCsrfToken env) ∧
    (env.cookieCsrftoken = some v → v ≠ "" → Csrf.getCsrfToken env = v) ∧
    (env.cookieCsrftoken = none →
      Csrf.getCsrfToken env = (env.metaCsrfToken).getD "") := by
  refine ⟨?_, ?_, ?_, ?_, rfl, rfl, ?_, ?_⟩
  · simp [Csrf.saveColumnRequest, hf]
  · simp [Csrf.deleteColumnRequest, hf]
  · simp [Csrf.applyDefaultsRequest, hf]
  · simp [Csrf.savePromptRequest, hf]
  · intro hc hv
    simp [Csrf.getCsrfToken, hc, hv]
  · intro hc
    simp [Csrf.getCsrfToken, hc]

/-- Claim C9 amended witness at the environment with all three sources
populated. -/
theorem csrf_source_amended_witness :
    Csrf.saveColumnRequest envBoth =
      some { method := "POST", csrfHeader := some "form-tok", jsonContentType := true } ∧
    (Csrf.cancelJobRequest envBoth).csrfHeader = some (Csrf.getCsrfToken envBoth) ∧
    Csrf.getCsrfToken envBoth = "cookie-tok" := by
  have h := csrf_source_amended envBoth "form-tok" "cookie-tok" (by decide)
  exact ⟨h.1, h.2.2.2.2.2.1, h.2.2.2.2.2.2.1 (by decide) (by decide)⟩

end PdfExtract
